import Mathlib

/-!
Verification development for the Account-Data Aggregation Protocol Client
(`server/bankApiService.ts` and `server/bankProviders.ts`).

The TypeScript source is embedded shallowly:
* upstream JSON values of type `string | undefined` become `Option String`;
* JavaScript numbers produced by `parseFloat` become `Option ℚ`, where
  `none` stands for `NaN` (the only non-rational value these code paths
  can produce);
* the `a || b` idiom on strings (empty string and `undefined` are falsy)
  becomes `jsOrStr` / `jsOrOpt`;
* the network boundary is modelled by passing the upstream response value
  (or an `UpstreamBehavior` record) as an argument, and by a trace of the
  outbound HTTP requests a call issues.
-/

namespace AskiBill

/-! ### JavaScript string primitives -/

/-- Prefix match on character lists: `charsLeadMatch hay need = true` iff
`need` is a prefix of `hay`. -/
def charsLeadMatch : List Char → List Char → Bool
  | _, [] => true
  | [], _ :: _ => false
  | a :: as, b :: bs => a == b && charsLeadMatch as bs

/-- Substring containment on character lists, scanning left to right. -/
def charsContain : List Char → List Char → Bool
  | [], need => charsLeadMatch [] need
  | h :: t, need => charsLeadMatch (h :: t) need || charsContain t need

/-- JavaScript `s.includes(sub)`: substring containment.  As in JS, every
string contains the empty string. -/
def strIncludes (s sub : String) : Bool :=
  charsContain s.data sub.data

/-- JavaScript `s.toLowerCase()` on the ASCII strings these code paths
handle, as a character-list map. -/
def jsToLower (s : String) : String :=
  ⟨s.data.map Char.toLower⟩

/-- JavaScript `s.toUpperCase()` on the ASCII strings these code paths
handle, as a character-list map. -/
def jsToUpper (s : String) : String :=
  ⟨s.data.map Char.toUpper⟩

/-- JavaScript `a || b` on a possibly-undefined string: `undefined` and the
empty string are falsy. -/
def jsOrStr (a : Option String) (b : String) : String :=
  match a with
  | none => b
  | some s => if s = "" then b else s

/-- JavaScript `a || b` where both operands are possibly-undefined strings. -/
def jsOrOpt (a b : Option String) : Option String :=
  match a with
  | none => b
  | some s => if s = "" then b else some s

/-! ### JavaScript number parsing (`parseFloat`) -/

/-- A JavaScript number as produced by the service's `parseFloat` calls:
`none` is `NaN`, `some q` is the rational value `q`. -/
abbrev JSNum := Option ℚ

/-- Splits a leading run of decimal digits off a character list. -/
def takeDigits : List Char → List Nat × List Char
  | [] => ([], [])
  | c :: t =>
    if c.isDigit then
      let p := takeDigits t
      ((c.toNat - 48) :: p.1, p.2)
    else ([], c :: t)

/-- Reads a digit list (most significant first) as a natural number. -/
def digitsToNat (ds : List Nat) : Nat :=
  ds.foldl (fun a d => a * 10 + d) 0

/-- Parses an unsigned decimal literal (`123`, `123.45`, `.5`) off the front
of a character list; trailing garbage is ignored, exactly as JavaScript
`parseFloat` ignores it.  Returns `none` when no digits are found (the
`NaN` case). -/
def parseUnsigned (cs : List Char) : Option ℚ :=
  let ip := takeDigits cs
  match ip.2 with
  | '.' :: rest =>
    let fp := takeDigits rest
    if ip.1.isEmpty && fp.1.isEmpty then none
    else some ((digitsToNat ip.1 : ℚ) + (digitsToNat fp.1 : ℚ) / (10 : ℚ) ^ fp.1.length)
  | _ => if ip.1.isEmpty then none else some (digitsToNat ip.1 : ℚ)

/-- JavaScript `parseFloat` restricted to the plain decimal‑literal forms the
upstream payloads use (optional sign, digits, optional fraction; leading
whitespace skipped, trailing garbage ignored).  `none` models `NaN`. -/
def jsParseFloat (s : String) : JSNum :=
  let cs := s.data.dropWhile fun c => c == ' ' || c == '\t' || c == '\n' || c == '\r'
  match cs with
  | '-' :: t => (parseUnsigned t).map fun q => -q
  | '+' :: t => parseUnsigned t
  | _ => parseUnsigned cs

/-- JavaScript `Math.abs`; `Math.abs(NaN) = NaN`. -/
def jsAbs (x : JSNum) : JSNum :=
  x.map fun q => |q|

/-- JavaScript `x >= 0`; false for `NaN`. -/
def jsGeZero (x : JSNum) : Bool :=
  match x with
  | none => false
  | some q => decide (0 ≤ q)

/-! ### Institution registry (`server/bankProviders.ts`)

The `logo` field of the source interface is optional and never populated in
the static table, so it is omitted here. -/

/-- One connectable financial institution (source interface `BankProvider`). -/
structure BankProvider where
  id : String
  name : String
  type : String
  country : String
  primaryColor : String
  supportedAccounts : List String
  apiProvider : Option String
  isActive : Bool
  requiresOAuth : Bool
  sandboxAvailable : Bool
deriving DecidableEq, Repr

/-- The static `indianBanks` table. -/
def indianBanks : List BankProvider :=
  [ { id := "sbi", name := "State Bank of India", type := "bank", country := "IN",
      primaryColor := "#1f4788", supportedAccounts := ["savings", "checking", "credit_card", "loan"],
      apiProvider := some "setu", isActive := true, requiresOAuth := true, sandboxAvailable := true },
    { id := "hdfc", name := "HDFC Bank", type := "bank", country := "IN",
      primaryColor := "#004c8f", supportedAccounts := ["savings", "checking", "credit_card", "loan"],
      apiProvider := some "setu", isActive := true, requiresOAuth := true, sandboxAvailable := true },
    { id := "icici", name := "ICICI Bank", type := "bank", country := "IN",
      primaryColor := "#b02a37", supportedAccounts := ["savings", "checking", "credit_card", "loan"],
      apiProvider := some "setu", isActive := true, requiresOAuth := true, sandboxAvailable := true },
    { id := "axis", name := "Axis Bank", type := "bank", country := "IN",
      primaryColor := "#97144d", supportedAccounts := ["savings", "checking", "credit_card", "loan"],
      apiProvider := some "setu", isActive := true, requiresOAuth := true, sandboxAvailable := true },
    { id := "kotak", name := "Kotak Mahindra Bank", type := "bank", country := "IN",
      primaryColor := "#ed1c24", supportedAccounts := ["savings", "checking", "credit_card", "loan"],
      apiProvider := some "direct", isActive := true, requiresOAuth := true, sandboxAvailable := true },
    { id := "yes", name := "YES Bank", type := "bank", country := "IN",
      primaryColor := "#0033a0", supportedAccounts := ["savings", "checking", "credit_card", "loan"],
      apiProvider := some "direct", isActive := true, requiresOAuth := true, sandboxAvailable := true },
    { id := "pnb", name := "Punjab National Bank", type := "bank", country := "IN",
      primaryColor := "#c41e3a", supportedAccounts := ["savings", "checking", "credit_card", "loan"],
      apiProvider := some "setu", isActive := true, requiresOAuth := true, sandboxAvailable := true },
    { id := "bob", name := "Bank of Baroda", type := "bank", country := "IN",
      primaryColor := "#ff6600", supportedAccounts := ["savings", "checking", "credit_card", "loan"],
      apiProvider := some "setu", isActive := true, requiresOAuth := true, sandboxAvailable := true },
    { id := "canara", name := "Canara Bank", type := "bank", country := "IN",
      primaryColor := "#ff6600", supportedAccounts := ["savings", "checking", "credit_card", "loan"],
      apiProvider := some "setu", isActive := true, requiresOAuth := true, sandboxAvailable := true },
    { id := "union", name := "Union Bank of India", type := "bank", country := "IN",
      primaryColor := "#0066cc", supportedAccounts := ["savings", "checking", "credit_card", "loan"],
      apiProvider := some "setu", isActive := true, requiresOAuth := true, sandboxAvailable := true },
    { id := "idfc", name := "IDFC First Bank", type := "bank", country := "IN",
      primaryColor := "#ff6600", supportedAccounts := ["savings", "checking", "credit_card", "loan"],
      apiProvider := some "setu", isActive := true, requiresOAuth := true, sandboxAvailable := true },
    { id := "indusind", name := "IndusInd Bank", type := "bank", country := "IN",
      primaryColor := "#ff6600", supportedAccounts := ["savings", "checking", "credit_card", "loan"],
      apiProvider := some "setu", isActive := true, requiresOAuth := true, sandboxAvailable := true },
    { id := "federal", name := "Federal Bank", type := "bank", country := "IN",
      primaryColor := "#ffd700", supportedAccounts := ["savings", "checking", "credit_card", "loan"],
      apiProvider := some "setu", isActive := true, requiresOAuth := true, sandboxAvailable := true },
    { id := "rbl", name := "RBL Bank", type := "bank", country := "IN",
      primaryColor := "#0066cc", supportedAccounts := ["savings", "checking", "credit_card", "loan"],
      apiProvider := some "direct", isActive := true, requiresOAuth := true, sandboxAvailable := true },
    { id := "dcb", name := "DCB Bank", type := "bank", country := "IN",
      primaryColor := "#ff6600", supportedAccounts := ["savings", "checking", "credit_card", "loan"],
      apiProvider := some "direct", isActive := true, requiresOAuth := true, sandboxAvailable := true } ]

/-- The static `creditCardProviders` table. -/
def creditCardProviders : List BankProvider :=
  [ { id := "amex", name := "American Express", type := "bank", country := "IN",
      primaryColor := "#006fcf", supportedAccounts := ["credit_card"],
      apiProvider := some "yodlee", isActive := true, requiresOAuth := true, sandboxAvailable := true },
    { id := "citi", name := "Citibank", type := "bank", country := "IN",
      primaryColor := "#1976d2", supportedAccounts := ["savings", "checking", "credit_card"],
      apiProvider := some "yodlee", isActive := true, requiresOAuth := true, sandboxAvailable := true },
    { id := "hsbc", name := "HSBC", type := "bank", country := "IN",
      primaryColor := "#db0011", supportedAccounts := ["savings", "checking", "credit_card"],
      apiProvider := some "yodlee", isActive := true, requiresOAuth := true, sandboxAvailable := true },
    { id := "sc", name := "Standard Chartered", type := "bank", country := "IN",
      primaryColor := "#005eb8", supportedAccounts := ["savings", "checking", "credit_card"],
      apiProvider := some "yodlee", isActive := true, requiresOAuth := true, sandboxAvailable := true } ]

/-- `allFinancialInstitutions = [...indianBanks, ...creditCardProviders]`. -/
def allFinancialInstitutions : List BankProvider :=
  indianBanks ++ creditCardProviders

/-! ### Upstream payload shapes (the `any`-typed JSON the service reads)

Every field an upstream record may or may not carry is an `Option`. -/

/-- An account record as it appears in upstream consent-status and
session-data payloads. -/
structure RawAccount where
  accRefNumber : Option String
  FIType : Option String
  accType : Option String
  maskedAccNumber : Option String
  accHolderName : Option String
  currentBalance : Option String
  availableBalance : Option String
  currency : Option String
deriving DecidableEq, Repr

/-- A transaction record as it appears in the upstream session-data payload. -/
structure RawTransaction where
  txnId : Option String
  amount : Option String
  narration : Option String
  description : Option String
  valueDate : Option String
  transactionTimestamp : Option String
  balance : Option String
  merchantName : Option String
deriving DecidableEq, Repr

/-- The JSON body of a `GET /consents/{consentId}` response. -/
structure RawConsentResponse where
  ConsentStatus : Option String
  accounts : Option (List RawAccount)
deriving DecidableEq, Repr

/-- The JSON body of a `GET /sessions/{sessionId}/data` response. -/
structure RawSessionData where
  Account : Option RawAccount
  Transactions : Option (List RawTransaction)
deriving DecidableEq, Repr

/-! ### Canonical shapes returned by the service

`accountId`, `institutionId` and `accountNumber` stay `Option String`
because the consent-status mapping copies possibly-undefined upstream
fields into them without a fallback; the timestamps `lastUpdated` and
`date` keep the raw value handed to `new Date(...)`. -/

/-- Source interface `BankAccountData`. -/
structure BankAccountData where
  accountId : Option String
  institutionId : Option String
  accountType : String
  accountNumber : Option String
  accountHolderName : String
  currentBalance : JSNum
  availableBalance : JSNum
  currency : String
  lastUpdated : Int
deriving DecidableEq, Repr

/-- Source interface `TransactionData`. -/
structure TransactionData where
  transactionId : String
  accountId : String
  amount : JSNum
  transactionType : String
  description : String
  category : String
  date : Option String
  balance : JSNum
  merchantName : Option String
deriving DecidableEq, Repr

/-! ### `AccountAggregatorService` -/

/-- `mapAccountType` (lines 259–272): fixed case-insensitive table with
default `savings`; the argument is `Option` because call sites feed it
possibly-undefined payload fields through optional chaining. -/
def mapAccountType (apiType : Option String) : String :=
  match apiType with
  | none => "savings"
  | some s =>
    let u := jsToUpper s
    if u = "SAVINGS" then "savings"
    else if u = "CURRENT" then "checking"
    else if u = "CREDIT_CARD" then "credit_card"
    else if u = "TERM_DEPOSIT" then "savings"
    else if u = "RECURRING_DEPOSIT" then "savings"
    else if u = "LOAN" then "loan"
    else if u = "PPF" then "investment"
    else if u = "EPF" then "investment"
    else if u = "NPS" then "investment"
    else "savings"

/-- `categorizeTransaction` (lines 275–301): lower-case the description,
then run the fixed if-chain of keyword rules. -/
def categorizeTransaction (description : String) : String :=
  let desc := jsToLower description
  if strIncludes desc "grocery" || strIncludes desc "food" || strIncludes desc "restaurant" then
    "Food & Dining"
  else if strIncludes desc "fuel" || strIncludes desc "petrol" || strIncludes desc "gas" then
    "Transportation"
  else if strIncludes desc "medical" || strIncludes desc "pharmacy" || strIncludes desc "hospital" then
    "Healthcare"
  else if strIncludes desc "salary" || strIncludes desc "pay" then
    "Income"
  else if strIncludes desc "rent" || strIncludes desc "emi" || strIncludes desc "loan" then
    "Bills & Utilities"
  else if strIncludes desc "shopping" || strIncludes desc "amazon" || strIncludes desc "flipkart" then
    "Shopping"
  else if strIncludes desc "entertainment" || strIncludes desc "movie" || strIncludes desc "netflix" then
    "Entertainment"
  else
    "Others"

/-- Source interface `ConsentRequest`: input to `createConsentRequest`.
Durations are in days. -/
structure ConsentRequest where
  userId : String
  institutionId : String
  consentTypes : List String
  consentDuration : Int
  dataLifetime : Int
deriving DecidableEq, Repr

/-- The consent payload built by `createConsentRequest` (lines 80–114).
Timestamps are epoch milliseconds; the source's two `Date.now()` /
`new Date()` reads within the same call are modelled as the single
instant `now`. -/
structure ConsentData where
  consentStart : Int
  consentExpiry : Int
  consentMode : String
  fetchType : String
  consentTypes : List String
  fiTypes : List String
  dataConsumerId : String
  customerId : String
  purposeCode : String
  fiDataRangeFrom : Int
  fiDataRangeTo : Int
  dataLifeUnit : String
  dataLifeValue : Int
  frequencyUnit : String
  frequencyValue : Int
deriving DecidableEq, Repr

/-- `createConsentRequest`, payload-construction part (lines 80–114). -/
def buildConsentData (now : Int) (clientId : String) (request : ConsentRequest) : ConsentData :=
  { consentStart := now,
    consentExpiry := now + request.consentDuration * 24 * 60 * 60 * 1000,
    consentMode := "STORE",
    fetchType := "PERIODIC",
    consentTypes := request.consentTypes,
    fiTypes := ["DEPOSIT", "TERM_DEPOSIT", "CREDIT_CARD", "RECURRING_DEPOSIT"],
    dataConsumerId := clientId,
    customerId := request.userId,
    purposeCode := "101",
    fiDataRangeFrom := now - 365 * 24 * 60 * 60 * 1000,
    fiDataRangeTo := now,
    dataLifeUnit := "DAY",
    dataLifeValue := request.dataLifetime,
    frequencyUnit := "HOUR",
    frequencyValue := 24 }

/-- An outbound HTTP request as seen by a mock transport. -/
structure HttpRequest where
  method : String
  path : String
deriving DecidableEq, Repr

/-- The outbound requests `createConsentRequest` issues before its first
`await` can fail: the payload construction cannot throw, so the POST to
`/consents` is always sent (lines 116–124). -/
def createConsentRequestTrace (_request : ConsentRequest) : List HttpRequest :=
  [{ method := "POST", path := "/consents" }]

/-- The account mapping `getConsentStatus` applies to each entry of
`result.accounts` when the consent is ACTIVE (lines 160–170). -/
def mapConsentAccount (now : Int) (acc : RawAccount) : BankAccountData :=
  { accountId := acc.accRefNumber,
    institutionId := acc.FIType,
    accountType := mapAccountType acc.accType,
    accountNumber := acc.maskedAccNumber,
    accountHolderName := jsOrStr acc.accHolderName "Account Holder",
    currentBalance := jsParseFloat (jsOrStr acc.currentBalance "0"),
    availableBalance := jsParseFloat (jsOrStr acc.availableBalance "0"),
    currency := jsOrStr acc.currency "INR",
    lastUpdated := now }

/-- The value returned by `getConsentStatus`. -/
structure ConsentStatusResult where
  status : String
  accounts : Option (List BankAccountData)
deriving DecidableEq, Repr

/-- `getConsentStatus`, response-processing part (lines 157–175): when the
upstream status is `ACTIVE` and an `accounts` value is present, map the
accounts; otherwise return `result.ConsentStatus || 'PENDING'` with no
accounts.  In JavaScript an array (even empty) is truthy, so presence is
`isSome`. -/
def parseConsentStatus (now : Int) (r : RawConsentResponse) : ConsentStatusResult :=
  match r.ConsentStatus, r.accounts with
  | some "ACTIVE", some accs =>
    { status := "ACTIVE", accounts := some (accs.map (mapConsentAccount now)) }
  | st, _ =>
    { status := jsOrStr st "PENDING", accounts := none }

/-- The per-transaction mapping inside `fetchAccountData` (lines 239–249).
`freshId i` models the `Date.now()`-plus-`Math.random()` fallback id the
source generates when `txn.txnId` is absent. -/
def normalizeTxn (freshId : Nat → String) (accountId : String) (i : Nat)
    (txn : RawTransaction) : TransactionData :=
  { transactionId := jsOrStr txn.txnId (freshId i),
    accountId := accountId,
    amount := jsAbs (jsParseFloat (jsOrStr txn.amount "0")),
    transactionType := if jsGeZero (jsParseFloat (jsOrStr txn.amount "0")) then "credit" else "debit",
    description := jsOrStr (jsOrOpt txn.narration txn.description) "Bank Transaction",
    category := categorizeTransaction (jsOrStr (jsOrOpt txn.narration txn.description) ""),
    date := jsOrOpt txn.valueDate txn.transactionTimestamp,
    balance := jsParseFloat (jsOrStr txn.balance "0"),
    merchantName := txn.merchantName }

/-- `fetchAccountData`, payload-parsing part (lines 227–249): builds the
single account and the transaction list from the session-data payload.
Parsing is total — there is no failure path in these lines. -/
def parseSessionData (now : Int) (freshId : Nat → String) (accountId : String)
    (data : RawSessionData) : BankAccountData × List TransactionData :=
  let account : BankAccountData :=
    { accountId := some (jsOrStr (data.Account.bind RawAccount.accRefNumber) accountId),
      institutionId := some (jsOrStr (data.Account.bind RawAccount.FIType) "unknown"),
      accountType := mapAccountType (data.Account.bind RawAccount.accType),
      accountNumber := some (jsOrStr (data.Account.bind RawAccount.maskedAccNumber) ""),
      accountHolderName := jsOrStr (data.Account.bind RawAccount.accHolderName) "Account Holder",
      currentBalance := jsParseFloat (jsOrStr (data.Account.bind RawAccount.currentBalance) "0"),
      availableBalance := jsParseFloat (jsOrStr (data.Account.bind RawAccount.availableBalance) "0"),
      currency := jsOrStr (data.Account.bind RawAccount.currency) "INR",
      lastUpdated := now }
  let transactions :=
    (data.Transactions.getD []).enum.map fun p => normalizeTxn freshId accountId p.1 p.2
  (account, transactions)

/-- The two network phases of `fetchAccountData`, as a mock upstream would
answer them. -/
structure UpstreamBehavior where
  sessionOk : Bool
  dataOk : Bool
  data : RawSessionData
deriving DecidableEq, Repr

/-- `fetchAccountData` end to end against a mock upstream (lines 183–256):
errors can arise only from the two HTTP phases; once both succeed, the
payload is parsed totally — normalization itself never fails. -/
def fetchAccountDataModel (now : Int) (freshId : Nat → String) (up : UpstreamBehavior)
    (_consentId accountId : String) : Except String (BankAccountData × List TransactionData) :=
  if !up.sessionOk then Except.error "Session creation failed"
  else if !up.dataOk then Except.error "Data fetch failed"
  else Except.ok (parseSessionData now freshId accountId up.data)

/-! ### `BankApiService` -/

/-- `getSupportedInstitutions` (lines 313–316). -/
def getSupportedInstitutions (country : String) : List BankProvider :=
  allFinancialInstitutions.filter fun bank => bank.country == country && bank.isActive

/-- `searchInstitutions` (lines 319–327). -/
def searchInstitutions (query country : String) : List BankProvider :=
  let institutions := getSupportedInstitutions country
  let searchTerm := jsToLower query
  institutions.filter fun inst =>
    strIncludes (jsToLower inst.name) searchTerm || strIncludes (jsToLower inst.id) searchTerm

/-- The fixed `ConsentRequest` that `connectBank` builds (lines 331–337). -/
def buildConnectRequest (userId institutionId : String) : ConsentRequest :=
  { userId := userId,
    institutionId := institutionId,
    consentTypes := ["PROFILE", "SUMMARY", "TRANSACTIONS"],
    consentDuration := 365,
    dataLifetime := 365 }

/-- The outbound requests `connectBank` issues (lines 330–340): it performs
no registry lookup of `institutionId` and delegates unconditionally to
`createConsentRequest`. -/
def connectBankTrace (userId institutionId : String) : List HttpRequest :=
  createConsentRequestTrace (buildConnectRequest userId institutionId)

/-! ### Spec-side categorizer for the refinement comparison -/

/-- The spec's seven keyword rules in priority order (§4.3), with the
"known brand names" of rules 6 and 7 instantiated to the names the code
checks. -/
def specCategoryRules : List (List String × String) :=
  [ (["grocery", "food", "restaurant"], "Food & Dining"),
    (["fuel", "petrol", "gas"], "Transportation"),
    (["medical", "pharmacy", "hospital"], "Healthcare"),
    (["salary", "pay"], "Income"),
    (["rent", "emi", "loan"], "Bills & Utilities"),
    (["shopping", "amazon", "flipkart"], "Shopping"),
    (["entertainment", "movie", "netflix"], "Entertainment") ]

/-- First-match-wins evaluation of a rule list; no match falls back to
`"Others"` (the spec's rule 8). -/
def firstCategory : List (List String × String) → String → String
  | [], _ => "Others"
  | r :: rest, d => if r.1.any (fun k => strIncludes d k) then r.2 else firstCategory rest d

/-- Follows the spec's words (§4.3 `categorize`): case-insensitive keyword
match against the lower-cased description, first matching rule wins. -/
def categorizeSpec (description : String) : String :=
  firstCategory specCategoryRules (jsToLower description)

/-! ### Concrete fixtures used by counterexamples and witnesses -/

/-- A fixed fallback-id generator standing in for the source's
`Date.now()`-plus-`Math.random()` fresh transaction id. -/
def genId : Nat → String := fun i => "generated-" ++ toString i

/-- An upstream account record whose `currentBalance` is the non-numeric
string `"N/A"` (the spec's malformed-balance scenario). -/
def naRawAccount : RawAccount :=
  { accRefNumber := some "ACC1", FIType := some "DEPOSIT", accType := some "SAVINGS",
    maskedAccNumber := some "XXXX1", accHolderName := some "A Holder",
    currentBalance := some "N/A", availableBalance := some "10.00",
    currency := some "INR" }

/-- A session-data payload carrying `naRawAccount` and no transactions. -/
def naSessionData : RawSessionData :=
  { Account := some naRawAccount, Transactions := some [] }

/-- A transaction record with a negative raw amount. -/
def negRawTxn : RawTransaction :=
  { txnId := some "t1", amount := some "-25", narration := some "grocery store",
    description := none, valueDate := some "2024-01-01", transactionTimestamp := none,
    balance := some "100", merchantName := none }

/-- An upstream account record whose `accRefNumber` is `"B2"`. -/
def b2RawAccount : RawAccount :=
  { accRefNumber := some "B2", FIType := some "DEPOSIT", accType := some "SAVINGS",
    maskedAccNumber := some "XXXX2", accHolderName := some "B Holder",
    currentBalance := some "50", availableBalance := some "50",
    currency := some "INR" }

/-- A session-data payload whose account carries `accRefNumber = "B2"` —
different from the `accountId` the caller requests — plus one transaction. -/
def mismatchSessionData : RawSessionData :=
  { Account := some b2RawAccount, Transactions := some [negRawTxn] }

/-! ### Helper lemmas -/

/-- Every string contains the empty string (JS `includes` semantics). -/
theorem strIncludes_empty (s : String) : strIncludes s "" = true := by
  unfold strIncludes
  cases s.data <;> simp [charsContain, charsLeadMatch]

/-- `mapAccountType` only ever returns one of the five canonical kinds. -/
theorem mapAccountType_mem (s : String) :
    mapAccountType (some s) ∈
      (["savings", "checking", "credit_card", "loan", "investment"] : List String) := by
  simp only [mapAccountType]
  repeat' split
  all_goals decide

/-- Double application of `mapAccountType` collapses `checking` and
`investment` to `savings` and fixes the other three outputs. -/
theorem mapAccountType_double (s : String) :
    mapAccountType (some (mapAccountType (some s))) =
      (if mapAccountType (some s) = "checking" ∨ mapAccountType (some s) = "investment"
       then "savings" else mapAccountType (some s)) := by
  rcases (by simpa using mapAccountType_mem s :
      mapAccountType (some s) = "savings" ∨ mapAccountType (some s) = "checking" ∨
      mapAccountType (some s) = "credit_card" ∨ mapAccountType (some s) = "loan" ∨
      mapAccountType (some s) = "investment") with h | h | h | h | h <;>
    rw [h] <;> decide

/-! ### C1 — consent status for missing/unrecognized upstream values -/

/-- C1 counterexample: a response with no status field at all yields
`PENDING`, not `ERROR` — the missing status IS silently coerced to
`PENDING`. -/
theorem missing_status_returns_pending_not_error :
    (parseConsentStatus 0 ⟨none, none⟩).status = "PENDING" ∧
    (parseConsentStatus 0 ⟨none, none⟩).status ≠ "ERROR" := by
  constructor
  · rfl
  · decide

/-- C1 (amended): `getConsentStatus` coerces a missing or empty status field
to `PENDING` and returns any other upstream status string verbatim; it never
produces a distinct `ERROR` state. -/
theorem consent_status_missing_pending_else_verbatim (now : Int) (st : Option String)
    (accs : Option (List RawAccount)) :
    (parseConsentStatus now ⟨st, accs⟩).status =
      match st with
      | none => "PENDING"
      | some s => if s = "" then "PENDING" else s := by
  rcases st with _ | s
  · cases accs <;> rfl
  · by_cases hs : s = "ACTIVE"
    · subst hs
      cases accs <;> simp [parseConsentStatus, jsOrStr]
    · cases accs <;> simp [parseConsentStatus, jsOrStr, hs]

/-! ### C2 — non-numeric balance handling -/

/-- C2 counterexample: with an upstream `currentBalance` of `"N/A"`,
`fetchAccountData` succeeds (no error of any kind is raised) and returns an
account whose balance is `NaN` — normalization does not fail. -/
theorem malformed_balance_not_rejected :
    fetchAccountDataModel 0 genId ⟨true, true, naSessionData⟩ "c1" "ACC1"
      = Except.ok (parseSessionData 0 genId "ACC1" naSessionData) ∧
    (parseSessionData 0 genId "ACC1" naSessionData).1.currentBalance = none := by
  constructor
  · rfl
  · decide

/-- C2 (amended): a non-numeric balance string does not fail normalization;
`parseFloat` produces `NaN` and the account is returned with `NaN` in that
field — there is no `MalformedPayloadError` path. -/
theorem malformed_balance_yields_nan (now : Int) (fid : Nat → String) (cid aid s : String)
    (acc : RawAccount) (trs : Option (List RawTransaction))
    (hs : acc.currentBalance = some s) (hne : s ≠ "") (hnan : jsParseFloat s = none) :
    fetchAccountDataModel now fid ⟨true, true, ⟨some acc, trs⟩⟩ cid aid
      = Except.ok (parseSessionData now fid aid ⟨some acc, trs⟩) ∧
    (parseSessionData now fid aid ⟨some acc, trs⟩).1.currentBalance = none := by
  constructor
  · rfl
  · simp [parseSessionData, jsOrStr, hs, hne, hnan]

/-- C2 witness: the amended theorem applied at the literal `"N/A"` payload. -/
theorem malformed_balance_yields_nan_witness :
    naRawAccount.currentBalance = some "N/A" ∧
    (fetchAccountDataModel 0 genId ⟨true, true, ⟨some naRawAccount, some [negRawTxn]⟩⟩ "c2w" "A9"
        = Except.ok (parseSessionData 0 genId "A9" ⟨some naRawAccount, some [negRawTxn]⟩) ∧
      (parseSessionData 0 genId "A9" ⟨some naRawAccount, some [negRawTxn]⟩).1.currentBalance = none) :=
  ⟨rfl, malformed_balance_yields_nan 0 genId "c2w" "A9" "N/A" naRawAccount (some [negRawTxn])
    rfl (by decide) (by decide)⟩

/-! ### C3 — unknown institution handling -/

/-- C3 counterexample: `"doesnotexist"` is not in the registry, yet
`connectBank "u1" "doesnotexist"` still sends its consent-creation request —
the mock transport receives a request, not zero. -/
theorem unknown_institution_network_call :
    (allFinancialInstitutions.any fun b => b.id == "doesnotexist") = false ∧
    connectBankTrace "u1" "doesnotexist" ≠ [] := by
  constructor <;> decide

/-- C3 (amended): `connectBank` performs no registry validation at all — for
every `userId` and `institutionId`, known or unknown, it issues exactly one
network request, the consent-creation POST; no `UnknownInstitution` failure
path exists. -/
theorem connect_bank_always_posts_consent (userId institutionId : String) :
    connectBankTrace userId institutionId = [{ method := "POST", path := "/consents" }] :=
  rfl

/-! ### C4 — transaction/account id linkage -/

/-- C4 counterexample: requesting account `"A1"` against a payload whose
`accRefNumber` is `"B2"` returns an account with id `"B2"` but transactions
stamped `"A1"` — the transaction does not reference the returned account. -/
theorem txn_account_mismatch :
    (parseSessionData 0 genId "A1" mismatchSessionData).1.accountId = some "B2" ∧
    (parseSessionData 0 genId "A1" mismatchSessionData).2.map TransactionData.accountId = ["A1"] ∧
    ("B2" : String) ≠ "A1" := by
  refine ⟨by decide, by decide, by decide⟩

/-- C4 (amended): every returned transaction carries the requested
`accountId` argument, while the returned account's id is the payload's
`accRefNumber` with the requested id only as fallback; the two coincide only
when `accRefNumber` is missing, empty, or equal to the requested id. -/
theorem txn_account_id_is_requested_id (now : Int) (fid : Nat → String) (aid : String)
    (data : RawSessionData) :
    ((parseSessionData now fid aid data).2.all fun t => t.accountId == aid) = true ∧
    (parseSessionData now fid aid data).1.accountId
      = some (jsOrStr (data.Account.bind RawAccount.accRefNumber) aid) := by
  constructor
  · simp only [parseSessionData, normalizeTxn]
    simp
    intro x i t _ hx
    subst hx
    rfl
  · rfl

/-! ### C5 — categorizer priority order -/

/-- C5: `categorizeTransaction` equals the spec's first-match-wins
evaluation of the eight fixed rules over the lower-cased description (rule 8
being the `"Others"` fallback), and a description containing both
`"grocery"` and `"fuel"` (any letter case) always lands in
`"Food & Dining"`. -/
theorem categorize_first_match_priority (s : String) :
    categorizeTransaction s = categorizeSpec s ∧
    (strIncludes (jsToLower s) "grocery" = true → strIncludes (jsToLower s) "fuel" = true →
      categorizeTransaction s = "Food & Dining") := by
  constructor
  · simp only [categorizeTransaction, categorizeSpec, specCategoryRules, firstCategory,
      List.any_cons, List.any_nil, Bool.or_false, Bool.or_assoc]
  · intro h1 _
    simp [categorizeTransaction, h1]

/-- C5 witness: the priority theorem applied at `"GROCERY fuel"`. -/
theorem categorize_first_match_priority_witness :
    strIncludes (jsToLower "GROCERY fuel") "grocery" = true ∧
    strIncludes (jsToLower "GROCERY fuel") "fuel" = true ∧
    categorizeTransaction "GROCERY fuel" = "Food & Dining" :=
  ⟨by decide, by decide,
    (categorize_first_match_priority "GROCERY fuel").2 (by decide) (by decide)⟩

/-! ### C6 — account-kind mapping -/

/-- C6 counterexample: `mapAccountType` is not idempotent — `"CURRENT"` maps
to `"checking"`, but `"checking"` maps on to `"savings"`. -/
theorem mapAccountType_not_idempotent :
    mapAccountType (some (mapAccountType (some "CURRENT"))) ≠ mapAccountType (some "CURRENT") := by
  decide

/-- C6 (amended): `mapAccountType` is total — missing input and every
unmapped string yield `"savings"`, the fixed table is matched
case-insensitively, and all outputs lie in the five-kind enum — but it is
not idempotent: double application collapses `"checking"` and
`"investment"` to `"savings"` and fixes the other outputs, so applying it
twice equals applying it once exactly when the first application does not
yield `"checking"` or `"investment"`. -/
theorem mapAccountType_total_not_idempotent (s : String) :
    mapAccountType none = "savings" ∧
    mapAccountType (some s) ∈
      (["savings", "checking", "credit_card", "loan", "investment"] : List String) ∧
    (mapAccountType (some "SAVINGS") = "savings" ∧
      mapAccountType (some "current") = "checking" ∧
      mapAccountType (some "Credit_Card") = "credit_card" ∧
      mapAccountType (some "TERM_DEPOSIT") = "savings" ∧
      mapAccountType (some "recurring_deposit") = "savings" ∧
      mapAccountType (some "LOAN") = "loan" ∧
      mapAccountType (some "ppf") = "investment" ∧
      mapAccountType (some "EPF") = "investment" ∧
      mapAccountType (some "nps") = "investment" ∧
      mapAccountType (some "SOME_UNKNOWN_KIND") = "savings") ∧
    mapAccountType (some (mapAccountType (some s))) =
      (if mapAccountType (some s) = "checking" ∨ mapAccountType (some s) = "investment"
       then "savings" else mapAccountType (some s)) :=
  ⟨rfl, mapAccountType_mem s, by decide, mapAccountType_double s⟩

/-! ### C7 — transaction direction and amount magnitude -/

/-- C7: whenever the raw transaction amount parses to a number `q`, the
normalized direction is `credit` iff `q ≥ 0`, and the canonical amount is
`|q|`, hence non-negative regardless of the raw sign. -/
theorem txn_direction_iff_sign (fid : Nat → String) (aid : String) (i : Nat)
    (txn : RawTransaction) (q : ℚ)
    (hq : jsParseFloat (jsOrStr txn.amount "0") = some q) :
    ((normalizeTxn fid aid i txn).transactionType = "credit" ↔ 0 ≤ q) ∧
    (normalizeTxn fid aid i txn).amount = some |q| ∧ (0 : ℚ) ≤ |q| := by
  refine ⟨?_, ?_, abs_nonneg q⟩
  · by_cases h0 : 0 ≤ q <;> simp [normalizeTxn, jsGeZero, hq, h0]
  · simp [normalizeTxn, jsAbs, hq]

/-- C7 witness: the direction/amount theorem applied at a raw amount of
`"-25"`. -/
theorem txn_direction_iff_sign_witness :
    jsParseFloat (jsOrStr negRawTxn.amount "0") = some (-25) ∧
    (((normalizeTxn genId "A1" 0 negRawTxn).transactionType = "credit" ↔ (0 : ℚ) ≤ -25) ∧
      (normalizeTxn genId "A1" 0 negRawTxn).amount = some |(-25 : ℚ)| ∧ (0 : ℚ) ≤ |(-25 : ℚ)|) :=
  ⟨by decide, txn_direction_iff_sign genId "A1" 0 negRawTxn (-25) (by decide)⟩

/-! ### C8 — consent expiry arithmetic -/

/-- C8: the consent payload's expiry is exactly the call-time timestamp plus
`consentDuration` days (`D * 24 * 60 * 60 * 1000` milliseconds), and its
start is the call time itself. -/
theorem consent_expiry_exact (now : Int) (clientId : String) (r : ConsentRequest) :
    (buildConsentData now clientId r).consentExpiry = now + r.consentDuration * 86400000 ∧
    (buildConsentData now clientId r).consentStart = now := by
  constructor
  · show now + r.consentDuration * 24 * 60 * 60 * 1000 = now + r.consentDuration * 86400000
    ring
  · rfl

/-! ### C9 — institution search -/

/-- C9: `searchInstitutions` returns exactly the active institutions of the
country whose name or id contains the query case-insensitively, in registry
insertion order (a single order-preserving filter over the registry), and
the empty query returns the full active country list. -/
theorem search_is_filtered_registry (q c : String) :
    searchInstitutions q c = allFinancialInstitutions.filter
      (fun b => b.country == c && b.isActive &&
        (strIncludes (jsToLower b.name) (jsToLower q) || strIncludes (jsToLower b.id) (jsToLower q))) ∧
    searchInstitutions "" c = getSupportedInstitutions c ∧
    getSupportedInstitutions c
      = allFinancialInstitutions.filter (fun b => b.country == c && b.isActive) := by
  refine ⟨?_, ?_, rfl⟩
  · unfold searchInstitutions getSupportedInstitutions
    rw [List.filter_filter]
    congr 1
    funext b
    cases hc : b.country == c <;> cases ha : b.isActive <;> simp [hc, ha]
  · simp [searchInstitutions, jsToLower, strIncludes_empty]

/-! ### C10 — fixed consent parameters in connectBank -/

/-- C10: `connectBank` builds the same consent request for every user and
institution — scopes exactly `PROFILE`, `SUMMARY`, `TRANSACTIONS`, both the
consent duration and the data lifetime 365 days — so every issued request
has non-empty scopes and strictly positive durations. -/
theorem connect_request_fixed_params (userId institutionId : String) :
    buildConnectRequest userId institutionId =
      { userId := userId, institutionId := institutionId,
        consentTypes := ["PROFILE", "SUMMARY", "TRANSACTIONS"],
        consentDuration := 365, dataLifetime := 365 } ∧
    (buildConnectRequest userId institutionId).consentTypes ≠ [] ∧
    0 < (buildConnectRequest userId institutionId).consentDuration ∧
    0 < (buildConnectRequest userId institutionId).dataLifetime := by
  refine ⟨rfl, ?_, ?_, ?_⟩
  · simp [buildConnectRequest]
  · norm_num [buildConnectRequest]
  · norm_num [buildConnectRequest]

end AskiBill
